import Mathlib

/-!
Verification of the Anbu-Surveillance controller (`src/anbu.py`).

The development embeds the decision logic of the script:

* the per-frame presence classification (`start_surveillance`, lines 103-115),
* the alert / cooldown state kept in `person_detected` and
  `last_detection_time` (lines 117-125),
* camera enumeration `detect_available_cameras` (lines 33-41) and the
  selection step `get_camera_selection` (lines 43-63),
* the notification routine `send_email` (lines 14-31).

Timestamps are modelled as integers (the code compares differences of
`time.time()` readings), detections as label/confidence records, and the
SMTP transport as an oracle assigning each step a success or a failure.
-/

/-- One detection box as consumed by the frame loop: the class name looked up
in `model.names[cls]` and the confidence `box.conf[0].item()`. -/
structure Detection where
  label : String
  confidence : ℚ
deriving DecidableEq

/-- Lines 103-115: `person_found` starts `False` and is set to `True` by any
box whose class name is `'person'`; the confidence is only interpolated into
the displayed overlay text, never tested. -/
def framePersonFound (boxes : List Detection) : Bool :=
  boxes.foldl (fun pf b => if b.label = "person" then true else pf) false

/-- The ambient alert state of the frame loop: `person_detected` (line 93) and
`last_detection_time` (line 94). -/
structure AlertState where
  person_detected : Bool
  last_detection_time : Int
deriving DecidableEq, Repr

/-- Lines 117-125, one frame of the detection logic, parametrised by the
cooldown (the literal `60` at line 124; a configurable duration per the
operator configuration).  Returns the new state and whether an email
dispatch was started (line 122).  Note the `True` branch sets
`last_detection_time` only when `person_detected` was previously false. -/
def stepAlert (cooldown : Int) (s : AlertState) (personFound : Bool)
    (now : Int) : AlertState × Bool :=
  if personFound then
    if !s.person_detected then (⟨true, now⟩, true) else (s, false)
  else
    if now - s.last_detection_time > cooldown then
      (⟨false, s.last_detection_time⟩, false)
    else (s, false)

/-- Run the frame loop over a timed presence trace; collect the timestamps of
the frames at which a notification dispatch was started. -/
def runAlert (cooldown : Int) (s : AlertState) :
    List (Int × Bool) → List Int
  | [] => []
  | f :: rest =>
    (if (stepAlert cooldown s f.2 f.1).2 then [f.1] else []) ++
      runAlert cooldown (stepAlert cooldown s f.2 f.1).1 rest

/-- Number of notification dispatches started over a trace. -/
def countAlerts (cooldown : Int) (s : AlertState) (tr : List (Int × Bool)) :
    Nat :=
  (runAlert cooldown s tr).length

/-- Modelled from the spec: the transition function of §4.4, whose `ALERTED`
state refreshes `lastTrueAt` on every `true` signal, so that the cooldown is
measured from the most recent `true` frame.  Used only to compare the claimed
behaviour against the code's. -/
def specStepAlert (cooldown : Int) (s : AlertState) (personFound : Bool)
    (now : Int) : AlertState × Bool :=
  if personFound then
    if !s.person_detected then (⟨true, now⟩, true) else (⟨true, now⟩, false)
  else
    if s.person_detected ∧ now - s.last_detection_time > cooldown then
      (⟨false, s.last_detection_time⟩, false)
    else (s, false)

/-- Run of the spec-modelled machine, collecting event timestamps. -/
def specRunAlert (cooldown : Int) (s : AlertState) :
    List (Int × Bool) → List Int
  | [] => []
  | f :: rest =>
    (if (specStepAlert cooldown s f.2 f.1).2 then [f.1] else []) ++
      specRunAlert cooldown (specStepAlert cooldown s f.2 f.1).1 rest

/-- Lines 33-41: probe indices `0, ..., max_cameras - 1`, appending `str(i)`
for each index whose capture opens.  The environment's answer to
`cv2.VideoCapture(i).isOpened()` is abstracted as `probe`. -/
def detect_available_cameras (max_cameras : Nat) (probe : Nat → Bool) :
    List String :=
  (List.range max_cameras).foldl
    (fun acc i => if probe i then acc ++ [Nat.repr i] else acc) []

/-- Decimal digit-string value, used to model the Python builtin `int()`. -/
def parseDigits (cs : List Char) : Option Nat :=
  if cs ≠ [] ∧ cs.all (fun c => c.isDigit) then
    some (cs.foldl (fun n c => n * 10 + (c.toNat - '0'.toNat)) 0)
  else none

/-- The Python builtin `int()` applied to a string: an optional sign followed
by decimal digits; anything else raises (`none`). -/
def pyInt (s : String) : Option Int :=
  match s.data with
  | '-' :: rest => (parseDigits rest).map (fun n => -(n : Int))
  | cs => (parseDigits cs).map (fun n => (n : Int))

/-- Lines 43-63: enumerate with the default bound 5; with no cameras report
the error and return `None` (`Except.ok none`); otherwise let the dialog pick
one of the enumerated strings and return `int(...)` of it.  `int()` on a
non-numeric string would raise, modelled by `Except.error`. -/
def get_camera_selection (probe : Nat → Bool)
    (choose : List String → String) : Except Unit (Option Int) :=
  let available := detect_available_cameras 5 probe
  if available = [] then Except.ok none
  else
    match pyInt (choose available) with
    | some i => Except.ok (some i)
    | none => Except.error ()

/-- The SMTP steps performed inside the `try` block of `send_email`
(lines 16-29): connect, STARTTLS, login, send, quit. -/
inductive SmtpOp
  | connect
  | starttls
  | login
  | sendmail
  | quit
deriving DecidableEq

/-- The `try` body of `send_email`: each transport step either succeeds or
raises; the first raise aborts the rest of the body. -/
def sendEmailBody (env : SmtpOp → Except String Unit) : Except String Unit := do
  env .connect
  env .starttls
  env .login
  env .sendmail
  env .quit

/-- Lines 14-31: the whole body is wrapped in `try/except Exception`; on
success the success line is printed, on any failure the failure line.  The
printed line is the returned value; the function never re-raises. -/
def send_email (env : SmtpOp → Except String Unit) : String :=
  match sendEmailBody env with
  | Except.ok _ => "Email notification sent!"
  | Except.error e => "Failed to send email: " ++ e

/-- How many times `server.sendmail` is attempted by `send_email`: zero if an
earlier step raised, one otherwise (there is no retry loop). -/
def sendmailAttempts (env : SmtpOp → Except String Unit) : Nat :=
  match env .connect, env .starttls, env .login with
  | Except.ok _, Except.ok _, Except.ok _ => 1
  | _, _, _ => 0

/-! ### Basic step and run lemmas -/

lemma stepAlert_idle_true (c lt now : Int) :
    stepAlert c ⟨false, lt⟩ true now = (⟨true, now⟩, true) := by
  unfold stepAlert; simp

lemma stepAlert_idle_false (c lt now : Int) :
    stepAlert c ⟨false, lt⟩ false now = (⟨false, lt⟩, false) := by
  unfold stepAlert; simp

lemma stepAlert_alerted_true (c lt now : Int) :
    stepAlert c ⟨true, lt⟩ true now = (⟨true, lt⟩, false) := by
  unfold stepAlert; simp

lemma stepAlert_alerted_false (c lt now : Int) :
    stepAlert c ⟨true, lt⟩ false now =
      if now - lt > c then (⟨false, lt⟩, false) else (⟨true, lt⟩, false) := by
  unfold stepAlert; simp

lemma runAlert_cons (c : Int) (s : AlertState) (f : Int × Bool)
    (tr : List (Int × Bool)) :
    runAlert c s (f :: tr) =
      (if (stepAlert c s f.2 f.1).2 then [f.1] else []) ++
        runAlert c (stepAlert c s f.2 f.1).1 tr := rfl

lemma countAlerts_nil (c : Int) (s : AlertState) : countAlerts c s [] = 0 := rfl

lemma countAlerts_cons (c : Int) (s : AlertState) (f : Int × Bool)
    (tr : List (Int × Bool)) :
    countAlerts c s (f :: tr) =
      (if (stepAlert c s f.2 f.1).2 then 1 else 0) +
        countAlerts c (stepAlert c s f.2 f.1).1 tr := by
  simp only [countAlerts, runAlert_cons, List.length_append]
  split <;> simp

/-! ### Episode structure of a trace under the code's cooldown rule

`dropEpisode c start tr` consumes the frames belonging to an episode that
began at time `start`: the episode ends at (and consumes) the first
false-signal frame lying more than `c` after `start`.  `episodeCount`
counts the episode groups of a trace under this rule. -/

def dropEpisode (cooldown start : Int) : List (Int × Bool) → List (Int × Bool)
  | [] => []
  | f :: rest =>
    if f.2 = false ∧ f.1 - start > cooldown then rest
    else dropEpisode cooldown start rest

lemma dropEpisode_length_le (cooldown start : Int) :
    ∀ tr : List (Int × Bool), (dropEpisode cooldown start tr).length ≤ tr.length := by
  intro tr
  induction tr with
  | nil => simp [dropEpisode]
  | cons f rest ih =>
    unfold dropEpisode
    split
    · simp
    · exact le_trans ih (by simp)

def episodeCount (cooldown : Int) : List (Int × Bool) → Nat
  | [] => 0
  | f :: rest =>
    if f.2 then episodeCount cooldown (dropEpisode cooldown f.1 rest) + 1
    else episodeCount cooldown rest
termination_by tr => tr.length
decreasing_by
  · exact Nat.lt_succ_of_le (dropEpisode_length_le _ _ _)
  · exact Nat.lt_succ_self _

lemma episodeCount_nil (c : Int) : episodeCount c [] = 0 := by
  simp only [episodeCount]

lemma episodeCount_cons (c : Int) (f : Int × Bool) (rest : List (Int × Bool)) :
    episodeCount c (f :: rest) =
      if f.2 then episodeCount c (dropEpisode c f.1 rest) + 1
      else episodeCount c rest := by
  simp only [episodeCount]

/-- Joint induction: from `IDLE` the machine's dispatch count is the episode
count of the remaining trace; from `ALERTED` with episode start `L` it is the
episode count of what is left after the current episode runs out. -/
lemma countAlerts_eq_episodeCount_aux (c : Int) :
    ∀ tr : List (Int × Bool),
      (∀ t0 : Int, countAlerts c ⟨false, t0⟩ tr = episodeCount c tr) ∧
      (∀ L : Int, countAlerts c ⟨true, L⟩ tr =
        episodeCount c (dropEpisode c L tr)) := by
  intro tr
  induction tr with
  | nil => simp [countAlerts_nil, episodeCount_nil, dropEpisode]
  | cons f rest ih =>
    obtain ⟨now, sig⟩ := f
    constructor
    · intro t0
      rw [countAlerts_cons]
      cases sig
      · rw [show stepAlert c ⟨false, t0⟩ (now, false).2 (now, false).1 =
            (⟨false, t0⟩, false) from stepAlert_idle_false c t0 now]
        simp [episodeCount_cons, ih.1]
      · rw [show stepAlert c ⟨false, t0⟩ (now, true).2 (now, true).1 =
            (⟨true, now⟩, true) from stepAlert_idle_true c t0 now]
        simp [episodeCount_cons, ih.2, Nat.add_comm]
    · intro L
      rw [countAlerts_cons]
      cases sig
      · by_cases h : now - L > c
        · rw [show stepAlert c ⟨true, L⟩ (now, false).2 (now, false).1 =
              (⟨false, L⟩, false) from by
                rw [stepAlert_alerted_false]; simp [h]]
          simp [dropEpisode, h, ih.1]
        · rw [show stepAlert c ⟨true, L⟩ (now, false).2 (now, false).1 =
              (⟨true, L⟩, false) from by
                rw [stepAlert_alerted_false]; simp [h]]
          simp [dropEpisode, h, ih.2]
      · rw [show stepAlert c ⟨true, L⟩ (now, true).2 (now, true).1 =
            (⟨true, L⟩, false) from stepAlert_alerted_true c L now]
        simp [dropEpisode, ih.2]

/-! ### Claims about the alert state machine -/

/-- C1 (counterexample): on the trace `T@0, T@70, F@71, T@72` with cooldown
60 there is a single maximal run-group of `true` signals — the only `false`
gap (at t=71, one second after the last `true`) is far shorter than the
cooldown, as the spec-modelled machine's single event confirms — yet the
code dispatches two notifications, because its cooldown runs from the
episode's first detection at t=0. -/
theorem alert_one_event_per_run_counterexample :
    countAlerts 60 ⟨false, 0⟩ [(0, true), (70, true), (71, false), (72, true)] = 2 ∧
    specRunAlert 60 ⟨false, 0⟩ [(0, true), (70, true), (71, false), (72, true)] = [0] := by
  constructor <;> rfl

/-- C1 (amended): the machine emits exactly one `AlertRaised` per episode
group of the trace, where an episode begins at a `true` signal reaching the
machine in `IDLE` and ends at the first `false`-signal frame more than
`cooldownSeconds` after the episode began (the code measures the gap from
the episode's first `true`, not from the most recent one). -/
theorem alert_one_event_per_episode (c t0 : Int) (tr : List (Int × Bool)) :
    countAlerts c ⟨false, t0⟩ tr = episodeCount c tr :=
  (countAlerts_eq_episodeCount_aux c tr).1 t0

/-- C2 (counterexample): on `[T,T,T,F,F,T,T]` at one-second intervals with
`cooldownSeconds = 2`, the code emits two events, not the claimed single
one: at t=3 the elapsed time since the episode's start (t=0) is already
3 > 2, so the `F,F` gap resets the episode. -/
theorem alert_scenario_counterexample :
    countAlerts 2 ⟨false, 0⟩
      [(0, true), (1, true), (2, true), (3, false), (4, false), (5, true), (6, true)] ≠ 1 ∧
    runAlert 2 ⟨false, 0⟩
      [(0, true), (1, true), (2, true), (3, false), (4, false), (5, true), (6, true)] = [0, 5] := by
  constructor
  · decide
  · rfl

/-- C2 (amended): on `[T,T,T,F,F,T,T]` at one-second intervals the code
emits exactly two `AlertRaised` events, at t=0 and t=5, for both
`cooldownSeconds = 2` and `cooldownSeconds = 1`: in each case the first
`false` frame at t=3 lies more than the cooldown after the episode start
t=0, so the episode resets and t=5 raises anew. -/
theorem alert_scenario_two_events :
    runAlert 2 ⟨false, 0⟩
      [(0, true), (1, true), (2, true), (3, false), (4, false), (5, true), (6, true)] = [0, 5] ∧
    runAlert 1 ⟨false, 0⟩
      [(0, true), (1, true), (2, true), (3, false), (4, false), (5, true), (6, true)] = [0, 5] := by
  constructor <;> rfl

/-- C3 (counterexample): a step taken in `ALERTED` (episode start 0) with a
`true` signal at `now = 5` leaves `last_detection_time` at 0; the claimed
update to `now = 5` does not happen (lines 118-122 only set it on the
IDLE→ALERTED edge). -/
theorem alerted_true_updates_counterexample :
    (stepAlert 60 ⟨true, 0⟩ true 5).1.last_detection_time = 0 ∧
    (stepAlert 60 ⟨true, 0⟩ true 5).1.last_detection_time ≠ 5 := by
  constructor <;> decide

/-- C3 (amended): in `ALERTED` a `true` signal leaves the state entirely
unchanged — `last_detection_time` keeps the episode's start time, no event —
and with a `false` signal the machine returns to `IDLE` exactly when `now`
minus the episode's start (the time of the `true` signal that raised the
alert) exceeds `cooldownSeconds`, also emitting no event. -/
theorem alerted_step_characterisation (c lt now : Int) :
    stepAlert c ⟨true, lt⟩ true now = (⟨true, lt⟩, false) ∧
    (stepAlert c ⟨true, lt⟩ false now).2 = false ∧
    ((stepAlert c ⟨true, lt⟩ false now).1.person_detected = false ↔ now - lt > c) ∧
    (stepAlert c ⟨true, lt⟩ false now).1.last_detection_time = lt := by
  refine ⟨stepAlert_alerted_true c lt now, ?_, ?_, ?_⟩ <;>
    by_cases h : now - lt > c <;>
      simp [stepAlert_alerted_false, h]

/-- C9: stepping in `IDLE` with a `false` signal returns the state unchanged
with no event, and so does stepping a second time with the same
`(state, signal, now)` triple. -/
theorem idle_false_idempotent (c lt now : Int) :
    stepAlert c ⟨false, lt⟩ false now = (⟨false, lt⟩, false) ∧
    stepAlert c (stepAlert c ⟨false, lt⟩ false now).1 false now =
      (⟨false, lt⟩, false) := by
  refine ⟨stepAlert_idle_false c lt now, ?_⟩
  rw [stepAlert_idle_false c lt now]
  exact stepAlert_idle_false c lt now

lemma countAlerts_alerted_allTrue (c L : Int) :
    ∀ tr : List (Int × Bool), (∀ x ∈ tr, x.2 = true) →
      countAlerts c ⟨true, L⟩ tr = 0 := by
  intro tr
  induction tr with
  | nil => simp [countAlerts_nil]
  | cons f rest ih =>
    intro h
    obtain ⟨now, sig⟩ := f
    have hf : sig = true := h (now, sig) (by simp)
    subst hf
    rw [countAlerts_cons]
    rw [show stepAlert c ⟨true, L⟩ (now, true).2 (now, true).1 =
        (⟨true, L⟩, false) from stepAlert_alerted_true c L now]
    simpa using ih fun x hx => h x (List.mem_cons_of_mem _ hx)

/-- C4: over any segment of frames whose presence signal is continuously
`true`, the machine dispatches at most one notification, from any starting
state: once `ALERTED`, further `true` frames emit nothing until the machine
has returned to `IDLE` (which a `true` frame never causes). -/
theorem at_most_one_dispatch_per_true_run (c : Int) (s : AlertState)
    (tr : List (Int × Bool)) (h : ∀ x ∈ tr, x.2 = true) :
    countAlerts c s tr ≤ 1 := by
  obtain ⟨p, L⟩ := s
  cases p
  · cases tr with
    | nil => simp [countAlerts_nil]
    | cons f rest =>
      obtain ⟨now, sig⟩ := f
      have hf : sig = true := h (now, sig) (by simp)
      subst hf
      rw [countAlerts_cons]
      rw [show stepAlert c ⟨false, L⟩ (now, true).2 (now, true).1 =
          (⟨true, now⟩, true) from stepAlert_idle_true c L now]
      simp [countAlerts_alerted_allTrue c now rest
        fun x hx => h x (List.mem_cons_of_mem _ hx)]
  · simp [countAlerts_alerted_allTrue c L tr h]

/-- C4 (witness): a concrete all-true run of three frames produces at most
one dispatch. -/
theorem at_most_one_dispatch_per_true_run_witness :
    (∀ x ∈ [((0 : Int), true), (1, true), (2, true)], x.2 = true) ∧
      countAlerts 60 ⟨false, 0⟩ [(0, true), (1, true), (2, true)] ≤ 1 :=
  ⟨by decide, at_most_one_dispatch_per_true_run 60 ⟨false, 0⟩ _ (by decide)⟩

/-! ### Monotonicity of the dispatch count in the cooldown -/

lemma countAlerts_cons' (c : Int) (s : AlertState) (now : Int) (sig : Bool)
    (tr : List (Int × Bool)) :
    countAlerts c s ((now, sig) :: tr) =
      (if (stepAlert c s sig now).2 then 1 else 0) +
        countAlerts c (stepAlert c s sig now).1 tr :=
  countAlerts_cons c s (now, sig) tr

/-- How many more dispatches the machine with the smaller cooldown may still
produce, as a function of the two machines' current states: one when the
small-cooldown machine is `ALERTED` and the large-cooldown one is not, or is
`ALERTED` with an older episode start; zero otherwise. -/
def extraAllow (s1 s2 : AlertState) : Nat :=
  if s1.person_detected then
    if s2.person_detected then
      if s1.last_detection_time ≤ s2.last_detection_time then 0 else 1
    else 1
  else 0

lemma extraAllow_le_one (s1 s2 : AlertState) : extraAllow s1 s2 ≤ 1 := by
  unfold extraAllow
  split_ifs <;> simp

/-- Simulation between the runs with cooldowns `c1 ≤ c2`: over a
time-sorted trace whose timestamps dominate both episode-start fields, the
large-cooldown machine dispatches at most `extraAllow` more than the
small-cooldown one. -/
lemma countAlerts_anti_aux (c1 c2 : Int) (hc : c1 ≤ c2) :
    ∀ tr : List (Int × Bool), ∀ p1 p2 : Bool, ∀ L1 L2 : Int,
      (∀ x ∈ tr, L1 ≤ x.1 ∧ L2 ≤ x.1) →
      List.Pairwise (fun a b : Int × Bool => a.1 ≤ b.1) tr →
      countAlerts c2 ⟨p2, L2⟩ tr ≤
        countAlerts c1 ⟨p1, L1⟩ tr + extraAllow ⟨p1, L1⟩ ⟨p2, L2⟩ := by
  intro tr
  induction tr with
  | nil => intro p1 p2 L1 L2 _ _; simp [countAlerts_nil]
  | cons f rest ih =>
    intro p1 p2 L1 L2 hb hp
    obtain ⟨now, sig⟩ := f
    rw [List.pairwise_cons] at hp
    have hb1 : L1 ≤ now := (hb (now, sig) (List.mem_cons_self _ _)).1
    have hb2 : L2 ≤ now := (hb (now, sig) (List.mem_cons_self _ _)).2
    have hbrest : ∀ x ∈ rest, L1 ≤ x.1 ∧ L2 ≤ x.1 :=
      fun x hx => hb x (List.mem_cons_of_mem _ hx)
    have hnowrest : ∀ x ∈ rest, now ≤ x.1 := fun x hx => hp.1 x hx
    rw [countAlerts_cons', countAlerts_cons']
    cases sig
    case false =>
      cases p1
      case false =>
        cases p2
        case false =>
          have := ih false false L1 L2 hbrest hp.2
          simp [extraAllow] at this ⊢
          simpa [stepAlert] using this
        case true =>
          by_cases h2 : now - L2 > c2
          · have := ih false false L1 L2 hbrest hp.2
            simp [extraAllow] at this
            simp [stepAlert, h2, extraAllow]
            omega
          · have := ih false true L1 L2 hbrest hp.2
            simp [extraAllow] at this
            simp [stepAlert, h2, extraAllow]
            omega
      case true =>
        cases p2
        case false =>
          by_cases h1 : now - L1 > c1
          · have := ih false false L1 L2 hbrest hp.2
            simp [extraAllow] at this
            simp [stepAlert, h1, extraAllow]
            omega
          · have := ih true false L1 L2 hbrest hp.2
            simp [extraAllow] at this
            simp [stepAlert, h1, extraAllow]
            omega
        case true =>
          by_cases h1 : now - L1 > c1 <;> by_cases h2 : now - L2 > c2
          · have := ih false false L1 L2 hbrest hp.2
            simp [extraAllow] at this
            simp [stepAlert, h1, h2]
            omega
          · have := ih false true L1 L2 hbrest hp.2
            simp [extraAllow] at this
            simp [stepAlert, h1, h2]
            omega
          · have hL : ¬ L1 ≤ L2 := by omega
            have := ih true false L1 L2 hbrest hp.2
            simp [extraAllow] at this
            simp [stepAlert, h1, h2, extraAllow, hL]
            omega
          · have := ih true true L1 L2 hbrest hp.2
            simp [stepAlert, h1, h2]
            omega
    case true =>
      cases p1
      case false =>
        cases p2
        case false =>
          have := ih true true now now
            (fun x hx => ⟨hnowrest x hx, hnowrest x hx⟩) hp.2
          simp [extraAllow] at this
          simp [stepAlert, extraAllow]
          omega
        case true =>
          have := ih true true now L2
            (fun x hx => ⟨hnowrest x hx, (hbrest x hx).2⟩) hp.2
          have hone := extraAllow_le_one (AlertState.mk true now) (AlertState.mk true L2)
          simp [stepAlert, extraAllow]
          omega
      case true =>
        cases p2
        case false =>
          have := ih true true L1 now
            (fun x hx => ⟨(hbrest x hx).1, hnowrest x hx⟩) hp.2
          simp [extraAllow, hb1] at this
          simp [stepAlert, extraAllow]
          omega
        case true =>
          have := ih true true L1 L2 hbrest hp.2
          simp [stepAlert]
          omega

/-- C8: for a fixed timed signal trace (timestamps in arrival order, all
after the session start `t0`), enlarging `cooldownSeconds` never increases
the number of dispatched notifications. -/
theorem alert_count_antitone_in_cooldown (c1 c2 t0 : Int)
    (tr : List (Int × Bool)) (hc : c1 ≤ c2)
    (hsort : List.Pairwise (fun a b : Int × Bool => a.1 ≤ b.1) tr)
    (hstart : ∀ x ∈ tr, t0 ≤ x.1) :
    countAlerts c2 ⟨false, t0⟩ tr ≤ countAlerts c1 ⟨false, t0⟩ tr := by
  have := countAlerts_anti_aux c1 c2 hc tr false false t0 t0
    (fun x hx => ⟨hstart x hx, hstart x hx⟩) hsort
  simpa [extraAllow] using this

/-- C8 (witness): on `T@0, F@2, T@3` the run with cooldown 5 dispatches no
more than the run with cooldown 1 (in fact one against two). -/
theorem alert_count_antitone_in_cooldown_witness :
    (1 : Int) ≤ 5 ∧
      countAlerts 5 ⟨false, 0⟩ [(0, true), (2, false), (3, true)] ≤
        countAlerts 1 ⟨false, 0⟩ [(0, true), (2, false), (3, true)] :=
  ⟨by decide, alert_count_antitone_in_cooldown 1 5 0 _ (by decide)
    (by decide) (by decide)⟩

/-! ### Presence classification -/

lemma framePersonFound_foldl (l : List Detection) (b : Bool) :
    l.foldl (fun pf d => if d.label = "person" then true else pf) b =
      (b || l.any fun d => decide (d.label = "person")) := by
  induction l generalizing b with
  | nil => simp
  | cons d rest ih =>
    by_cases h : d.label = "person"
    · simp only [List.foldl_cons, List.any_cons, if_pos h, ih]
      simp [h]
    · simp only [List.foldl_cons, List.any_cons, if_neg h, ih]
      simp [h]

/-- C5 (counterexample): a frame with a single `person` box of confidence
0.1 makes `person_found` true, while the claimed classifier with minimum
confidence 0.5 would report false — no confidence threshold exists in the
code. -/
theorem classify_confidence_counterexample :
    framePersonFound [⟨"person", 1/10⟩] = true ∧
      ¬ ∃ d ∈ [Detection.mk "person" (1/10)],
        d.label = "person" ∧ (1/2 : ℚ) ≤ d.confidence := by
  refine ⟨rfl, ?_⟩
  rintro ⟨d, hd, -, hconf⟩
  simp only [List.mem_singleton] at hd
  subst hd
  norm_num at hconf

/-- C5 (amended): the per-frame presence classification is a pure function
of the frame's detection list returning true iff at least one detection has
label `person`; the detections' confidences play no role. -/
theorem classify_is_person_membership (boxes : List Detection) :
    framePersonFound boxes = true ↔ ∃ d ∈ boxes, d.label = "person" := by
  unfold framePersonFound
  rw [framePersonFound_foldl]
  simp

/-! ### Camera enumeration and selection -/

lemma detect_foldl (probe : Nat → Bool) :
    ∀ (l : List Nat) (acc : List String),
      l.foldl (fun acc i => if probe i then acc ++ [Nat.repr i] else acc) acc =
        acc ++ (l.filter probe).map Nat.repr := by
  intro l
  induction l with
  | nil => simp
  | cons x xs ih =>
    intro acc
    simp only [List.foldl_cons, List.filter_cons]
    by_cases h : probe x <;> simp [h, ih]

lemma detect_available_cameras_eq (max_cameras : Nat) (probe : Nat → Bool) :
    detect_available_cameras max_cameras probe =
      ((List.range max_cameras).filter probe).map Nat.repr := by
  unfold detect_available_cameras
  rw [detect_foldl]
  simp

/-- C6: enumeration returns exactly the probed-open indices below
`max_cameras` (as a total function it cannot fail), keeps them in strictly
increasing index order, and yields the empty list for `max_cameras = 0`. -/
theorem camera_enumeration_correct (max_cameras : Nat) (probe : Nat → Bool) :
    detect_available_cameras max_cameras probe =
        ((List.range max_cameras).filter probe).map Nat.repr ∧
      List.Pairwise (· < ·) ((List.range max_cameras).filter probe) ∧
      (∀ i : Nat, i ∈ (List.range max_cameras).filter probe ↔
        i < max_cameras ∧ probe i = true) ∧
      detect_available_cameras 0 probe = [] := by
  refine ⟨detect_available_cameras_eq max_cameras probe, ?_, ?_, rfl⟩
  · exact (List.pairwise_lt_range max_cameras).filter _
  · intro i
    simp [List.mem_filter, List.mem_range, and_comm]

/-! ### Notification dispatch contract -/

/-- C7: whatever the transport does — including a failure of connect,
STARTTLS, login, send or quit — `send_email` returns a log line: a failing
body always produces the failure log (the exception is caught, never
re-raised), every run is either a clean success or a caught error, and the
send is attempted at most once (no retry). -/
theorem notification_failure_isolated (env : SmtpOp → Except String Unit) :
    (∀ e, sendEmailBody env = Except.error e →
      send_email env = "Failed to send email: " ++ e) ∧
    (sendEmailBody env = Except.ok () ∧
        send_email env = "Email notification sent!" ∨
      ∃ e, sendEmailBody env = Except.error e ∧
        send_email env = "Failed to send email: " ++ e) ∧
    sendmailAttempts env ≤ 1 := by
  refine ⟨?_, ?_, ?_⟩
  · intro e he
    unfold send_email
    rw [he]
  · cases h : sendEmailBody env with
    | ok u =>
      left
      cases u
      exact ⟨rfl, by unfold send_email; rw [h]⟩
    | error e =>
      right
      exact ⟨e, rfl, by unfold send_email; rw [h]⟩
  · unfold sendmailAttempts
    cases env .connect <;> cases env .starttls <;> cases env .login <;> simp

/-- C7 (witness): with a transport whose every step raises
`"network down"`, the body fails and `send_email` returns the failure log. -/
theorem notification_failure_isolated_witness :
    sendEmailBody (fun _ => Except.error "network down") =
        Except.error "network down" ∧
      send_email (fun _ => Except.error "network down") =
        "Failed to send email: network down" :=
  ⟨rfl, (notification_failure_isolated
    (fun _ => Except.error "network down")).1 "network down" rfl⟩

/-! ### The enumerated devices are decimal strings -/

lemma repr_pyInt_small : ∀ i : Nat, i < 5 → pyInt (Nat.repr i) = some (i : Int) := by
  decide

/-- C10: every element the enumeration returns is the decimal string
`str(i)` of its device index `i`, and only the selection step converts the
chosen string back to an integer: selecting any element of the enumerated
list yields `Except.ok (some i)` for the index `i` it prints. -/
theorem camera_strings_roundtrip (max_cameras : Nat) (probe : Nat → Bool)
    (choose : List String → String)
    (hne : detect_available_cameras 5 probe ≠ [])
    (hch : choose (detect_available_cameras 5 probe) ∈
      detect_available_cameras 5 probe) :
    (∀ s ∈ detect_available_cameras max_cameras probe,
      ∃ i : Nat, i < max_cameras ∧ probe i = true ∧ s = Nat.repr i) ∧
    ∃ i : Nat, i < 5 ∧ probe i = true ∧
      choose (detect_available_cameras 5 probe) = Nat.repr i ∧
      get_camera_selection probe choose = Except.ok (some (i : Int)) := by
  have hchar : ∀ (m : Nat) (s : String), s ∈ detect_available_cameras m probe →
      ∃ i : Nat, i < m ∧ probe i = true ∧ s = Nat.repr i := by
    intro m s hs
    rw [detect_available_cameras_eq] at hs
    simp only [List.mem_map, List.mem_filter, List.mem_range] at hs
    obtain ⟨i, ⟨hi, hp⟩, rfl⟩ := hs
    exact ⟨i, hi, hp, rfl⟩
  refine ⟨fun s hs => hchar max_cameras s hs, ?_⟩
  obtain ⟨i, hi5, hp, hrepr⟩ := hchar 5 _ hch
  refine ⟨i, hi5, hp, hrepr, ?_⟩
  unfold get_camera_selection
  rw [if_neg hne, hrepr, repr_pyInt_small i hi5]

/-- C10 (witness): probing only index 1 open, the enumeration is `["1"]`,
the dialog's default pick is its head, and the selection returns the
integer 1. -/
theorem camera_strings_roundtrip_witness :
    detect_available_cameras 5 (fun i => i == 1) ≠ [] ∧
      ∃ i : Nat, i < 5 ∧ (fun i : Nat => i == 1) i = true ∧
        (fun l : List String => l.headD "")
            (detect_available_cameras 5 (fun i => i == 1)) = Nat.repr i ∧
        get_camera_selection (fun i => i == 1) (fun l => l.headD "") =
          Except.ok (some (i : Int)) :=
  ⟨by rw [show detect_available_cameras 5 (fun i : Nat => i == 1) = ["1"] from rfl]; simp,
    (camera_strings_roundtrip 5 (fun i => i == 1) (fun l => l.headD "")
      (by rw [show detect_available_cameras 5 (fun i : Nat => i == 1) = ["1"] from rfl]; simp)
      (by rw [show detect_available_cameras 5 (fun i : Nat => i == 1) = ["1"] from rfl]; simp)).2⟩
